import Mathlib

/-!
Verification of the OpenCLAW model router (src/src/router.py).

The router is embedded shallowly: the mutable `ModelRouter` object becomes a
record threaded explicitly, the Python dict of models becomes an association
list in insertion order, routing rules (raw dicts in the source) become a
record of optional fields, and the decision dicts returned by `route_task`
become a tagged `Decision` type with one constructor per distinct dict shape
in the source. Numeric budget arithmetic is modelled over the rationals.
-/

namespace OpenClaw

/-- Model configuration, from the `Model` dataclass. -/
structure Model where
  name : String
  type : List String
  cost_per_1m_tokens : Int
  max_context : Int
  priority : Int
  capabilities : List String := []
deriving Repr, DecidableEq

/-- Task to be routed, from the `Task` dataclass (with its field defaults). -/
structure Task where
  description : String
  task_type : String
  complexity : String := "medium"
  priority : String := "normal"
  require_fallback : Bool := true
deriving Repr, DecidableEq

/-- The `when` predicate of a routing rule: two optional exact-match filters.
A Python dict value that is missing is `none`. -/
structure RuleWhen where
  task_type : Option String := none
  complexity : Option String := none
deriving Repr, DecidableEq

/-- A routing rule, as the raw rule dicts are used by `route_task`:
only the keys `when`, `use`, `fallback`, `reasoning` are ever read. -/
structure Rule where
  «when» : RuleWhen := {}
  use : Option String := none
  fallback : Option String := none
  reasoning : Option String := none
deriving Repr, DecidableEq

/-- Router state: model registry (insertion-ordered association list, as a
Python dict), ordered rule list, and the two budget numbers. -/
structure ModelRouter where
  models : List (String × Model)
  routing_rules : List Rule
  budget_spent_today : ℚ
  daily_limit : ℚ
deriving Repr, DecidableEq

/-- Registry lookup, `self.models.get(model_id)`. -/
def ModelRouter.getModel (r : ModelRouter) (model_id : String) : Option Model :=
  (r.models.find? (fun p => p.1 == model_id)).map Prod.snd

/-- Python truthiness of an optional string: `None` and `""` are falsy. -/
def truthyStr : Option String → Bool
  | none => false
  | some s => !(s == "")

/-- Decisions returned by `route_task`. Each constructor mirrors one of the
three dict literals in the source, with exactly the keys that dict carries
(the no-rule branch omits `fallback_model` and `budget_remaining`). -/
inductive Decision where
  | blocked (reason : String) (suggestion : String)
  | routedRule (task : String) (task_type : String) (complexity : String)
      (selected_model : Option String) (fallback_model : Option String)
      (reasoning : String) (estimated_cost : Option Int)
      (budget_remaining : ℚ)
  | routedNoRule (task : String) (task_type : String) (complexity : String)
      (selected_model : Option String) (reasoning : String)
      (estimated_cost : Option Int)
deriving Repr, DecidableEq

/-- The `status` key of a decision dict. -/
def Decision.status : Decision → String
  | .blocked _ _ => "blocked"
  | .routedRule _ _ _ _ _ _ _ _ => "routed"
  | .routedNoRule _ _ _ _ _ _ => "routed"

/-- The `selected_model` key of a decision dict (absent on the blocked dict). -/
def Decision.selectedModel : Decision → Option String
  | .blocked _ _ => none
  | .routedRule _ _ _ s _ _ _ _ => s
  | .routedNoRule _ _ _ s _ _ => s

/-- The `reasoning` key of a decision dict (absent on the blocked dict). -/
def Decision.reasoningText : Decision → Option String
  | .blocked _ _ => none
  | .routedRule _ _ _ _ _ g _ _ => some g
  | .routedNoRule _ _ _ _ g _ => some g

/-- The `budget_remaining` key of a decision dict; only the rule-match branch
of `route_task` produces a dict carrying this key. -/
def Decision.budgetRemaining : Decision → Option ℚ
  | .routedRule _ _ _ _ _ _ _ b => some b
  | _ => none

/-- Python `str.lower`, written characterwise over the underlying character
list (extensionally the same mapping as the library toLower, but stated in a
form that evaluates by kernel reduction on literals). -/
def strToLower (s : String) : String :=
  String.mk (s.data.map Char.toLower)

/-- Occurrence scan for `strContains`: the needle occurs at some position. -/
def containsAux (w : List Char) : List Char → Bool
  | [] => w.isEmpty
  | c :: cs => w.isPrefixOf (c :: cs) || containsAux w cs

/-- Substring test, Python `word in desc` on strings. -/
def strContains (desc word : String) : Bool :=
  containsAux word.toList desc.toList

/-- The classifier `ModelRouter.classify_task`: two independent
first-match-wins keyword passes over the lowercased description. -/
def classify_task (task_description : String) : Task :=
  let desc := strToLower task_description
  let task_type :=
    if ["write code", "create function", "implement"].any (strContains desc) then
      "code_simple"
    else if ["review code", "refactor", "audit"].any (strContains desc) then
      "code_review"
    else if ["debug", "fix error", "solve bug"].any (strContains desc) then
      "debugging"
    else if ["architecture", "design system", "scale"].any (strContains desc) then
      "code_complex"
    else if ["generate image", "create picture"].any (strContains desc) then
      "image"
    else if ["analyze data", "process data"].any (strContains desc) then
      "data"
    else
      "chat"
  let complexity :=
    if ["simple", "basic", "easy"].any (strContains desc) then
      "low"
    else if ["complex", "advanced", "architecture"].any (strContains desc) then
      "high"
    else
      "medium"
  { description := task_description, task_type := task_type, complexity := complexity }

/-- Python `==` between an optional string and a string: `None` equals no
string, otherwise compare the strings. -/
def optEqStr (o : Option String) (v : String) : Bool :=
  match o with
  | none => false
  | some s => s == v

/-- The per-rule test of the scan loop in `route_task`: the rule is skipped
(`continue`) when a filter value is truthy and differs from the task field. -/
def ruleMatches (rule : Rule) (task : Task) : Bool :=
  let w := rule.«when»
  let type_match := optEqStr w.task_type task.task_type
  let complexity_match := optEqStr w.complexity task.complexity
  if truthyStr w.task_type && !type_match then false
  else if truthyStr w.complexity && !complexity_match then false
  else true

/-- Leftmost element of minimal cost, Python `min(capable, key=..., default=None)`. -/
def minByCost : List Model → Option Model
  | [] => none
  | m :: ms =>
    match minByCost ms with
    | none => some m
    | some b => if b.cost_per_1m_tokens < m.cost_per_1m_tokens then some b else some m

/-- `ModelRouter.find_cheapest_model`: filter registry values to models whose
`type` list contains the task type, then take the cheapest. -/
def find_cheapest_model (r : ModelRouter) (task : Task) : Option Model :=
  let capable := (r.models.map Prod.snd).filter (fun m => m.type.contains task.task_type)
  minByCost capable

/-- Body of the rule-match branch of `route_task` (lines 145-167 of the
source): resolve `use` and `fallback` in the registry, substitute the
cheapest capable model when `use` resolves to nothing, and build the dict. -/
def applyRule (r : ModelRouter) (task : Task) (rule : Rule) : Decision :=
  let reasoning := rule.reasoning.getD "No reasoning provided"
  let selected_model := rule.use.bind r.getModel
  let fallback_model :=
    if truthyStr rule.fallback then rule.fallback.bind r.getModel else none
  let selected_model :=
    match selected_model with
    | none => find_cheapest_model r task
    | some m => some m
  Decision.routedRule task.description task.task_type task.complexity
    (selected_model.map Model.name) (fallback_model.map Model.name)
    reasoning (selected_model.map Model.cost_per_1m_tokens)
    (r.daily_limit - r.budget_spent_today)

/-- The dict built when the scan loop falls through with no match
(lines 169-179 of the source). -/
def noRuleDecision (r : ModelRouter) (task : Task) : Decision :=
  let model := find_cheapest_model r task
  Decision.routedNoRule task.description task.task_type task.complexity
    (model.map Model.name) "No matching rule - using cheapest option"
    (model.map Model.cost_per_1m_tokens)

/-- The scan loop of `route_task`: first matching rule wins, else fall through. -/
def routeRules (r : ModelRouter) (task : Task) : List Rule → Decision
  | [] => noRuleDecision r task
  | rule :: rest =>
    if ruleMatches rule task then applyRule r task rule else routeRules r task rest

/-- `ModelRouter.route_task`: budget gate, then the rule scan. -/
def route_task (r : ModelRouter) (task : Task) : Decision :=
  if r.budget_spent_today ≥ r.daily_limit then
    Decision.blocked "Daily budget exceeded" "Wait for budget reset or increase limit"
  else
    routeRules r task r.routing_rules

/-- `ModelRouter.track_cost`: a no-op for an unknown id, otherwise add
`tokens_used / 1_000_000 * cost_per_1m_tokens` to the spent counter. -/
def track_cost (r : ModelRouter) (model_id : String) (tokens_used : Int) : ModelRouter :=
  match r.getModel model_id with
  | some model =>
      { r with budget_spent_today :=
          r.budget_spent_today + ((tokens_used : ℚ) / 1000000) * (model.cost_per_1m_tokens : ℚ) }
  | none => r

/-! Concrete fixtures used by witnesses and counterexamples. -/

/-- A chat-capable model of cost 3 per million tokens. -/
def mChat3 : Model :=
  { name := "M", type := ["chat"], cost_per_1m_tokens := 3, max_context := 200000, priority := 1 }

/-- A chat-capable model of cost 7 per million tokens. -/
def mChat7 : Model :=
  { name := "C", type := ["chat"], cost_per_1m_tokens := 7, max_context := 200000, priority := 1 }

/-- A chat task of medium complexity. -/
def taskChat : Task := { description := "d", task_type := "chat" }

/-- A router holding one model of cost 3 under id `m`, no rules, budget open. -/
def routerM3 : ModelRouter :=
  { models := [("m", mChat3)], routing_rules := [], budget_spent_today := 0, daily_limit := 100 }

/-- A router whose budget is exactly exhausted. -/
def routerSpent : ModelRouter :=
  { models := [("m", mChat3)], routing_rules := [], budget_spent_today := 5, daily_limit := 5 }

/-- A rule with no filters at all: it matches every task. -/
def ruleMatchAll : Rule := {}

/-- First of two rules that both match a chat task. -/
def ruleFirst : Rule := { «when» := { task_type := some "chat" }, reasoning := some "first" }

/-- Second of two rules that both match a chat task. -/
def ruleSecond : Rule := { reasoning := some "second" }

/-- A router holding the two overlapping rules in order. -/
def routerTwoRules : ModelRouter :=
  { models := [], routing_rules := [ruleFirst, ruleSecond], budget_spent_today := 0,
    daily_limit := 100 }

/-- A router with one unconditional rule and an open budget. -/
def routerMatchAll : ModelRouter :=
  { models := [], routing_rules := [ruleMatchAll], budget_spent_today := 0, daily_limit := 100 }

/-! Helper lemmas about the embedded operations. -/

/-- Rules that all fail the match test are skipped by the scan loop. -/
theorem routeRules_skip (r : ModelRouter) (task : Task) (pre rest : List Rule)
    (h : ∀ q ∈ pre, ruleMatches q task = false) :
    routeRules r task (pre ++ rest) = routeRules r task rest := by
  induction pre with
  | nil => rfl
  | cons q qs ih =>
      have hq : ruleMatches q task = false := h q (by simp)
      simp only [List.cons_append, routeRules, hq, Bool.false_eq_true, if_false]
      exact ih (fun x hx => h x (by simp [hx]))

/-- When the budget gate passes and some rule is the first match, `route_task`
returns the decision built from that rule. -/
theorem route_task_first_match (r : ModelRouter) (task : Task) (pre post : List Rule)
    (rule : Rule)
    (hrules : r.routing_rules = pre ++ rule :: post)
    (hbudget : r.budget_spent_today < r.daily_limit)
    (hpre : ∀ q ∈ pre, ruleMatches q task = false)
    (hmatch : ruleMatches rule task = true) :
    route_task r task = applyRule r task rule := by
  unfold route_task
  rw [if_neg (not_le.mpr hbudget), hrules, routeRules_skip r task pre (rule :: post) hpre]
  simp [routeRules, hmatch]

/-- A successful registry lookup returns one of the registry entries. -/
theorem getModel_mem (r : ModelRouter) (model_id : String) (m : Model)
    (h : r.getModel model_id = some m) : ∃ p ∈ r.models, p.2 = m := by
  unfold ModelRouter.getModel at h
  cases hf : r.models.find? (fun p => p.1 == model_id) with
  | none => rw [hf] at h; simp at h
  | some p =>
      rw [hf] at h
      exact ⟨p, List.mem_of_find?_eq_some hf, by simpa using h⟩

/-- C1: with `spent_today >= daily_limit`, `route_task` returns the blocked
decision with reason `Daily budget exceeded` and the fixed suggestion string,
independently of the task, the registry and the rule list. -/
theorem budget_gate_blocks (r : ModelRouter) (task : Task)
    (h : r.budget_spent_today ≥ r.daily_limit) :
    route_task r task =
      Decision.blocked "Daily budget exceeded" "Wait for budget reset or increase limit" := by
  simp [route_task, h]

/-- Witness for C1 on a router whose spend equals its limit. -/
theorem budget_gate_blocks_witness :
    routerSpent.budget_spent_today ≥ routerSpent.daily_limit ∧
    route_task routerSpent taskChat =
      Decision.blocked "Daily budget exceeded" "Wait for budget reset or increase limit" :=
  ⟨le_refl _, budget_gate_blocks routerSpent taskChat (le_refl _)⟩

/-- C7: `track_cost` on an unknown id leaves the whole router unchanged;
on a known id it adds exactly `tokens_used / 1000000 * cost_per_1m_tokens`
to `spent_today` and changes nothing else. -/
theorem track_cost_spec (r : ModelRouter) (model_id : String) (tokens_used : Int) :
    (r.getModel model_id = none → track_cost r model_id tokens_used = r) ∧
    (∀ m, r.getModel model_id = some m →
      (track_cost r model_id tokens_used).budget_spent_today
          = r.budget_spent_today + ((tokens_used : ℚ) / 1000000) * (m.cost_per_1m_tokens : ℚ) ∧
      (track_cost r model_id tokens_used).models = r.models ∧
      (track_cost r model_id tokens_used).routing_rules = r.routing_rules ∧
      (track_cost r model_id tokens_used).daily_limit = r.daily_limit) := by
  constructor
  · intro h; simp [track_cost, h]
  · intro m h; simp [track_cost, h]

/-- Witness for C7: a million tokens on a cost-3 model adds exactly 3, and an
unknown id is a no-op. -/
theorem track_cost_spec_witness :
    (track_cost routerM3 "m" 1000000).budget_spent_today
        = routerM3.budget_spent_today + 3 ∧
    track_cost routerM3 "x" 7 = routerM3 := by
  constructor
  · have h := ((track_cost_spec routerM3 "m" 1000000).2 mChat3 rfl).1
    rw [h]; norm_num [mChat3]
  · exact (track_cost_spec routerM3 "x" 7).1 rfl

/-- C8 (amended): with non-negative token counts and non-negative registry
costs, `spent_today` never decreases under `track_cost`. -/
theorem track_cost_monotone (r : ModelRouter) (model_id : String) (tokens_used : Int)
    (htok : 0 ≤ tokens_used)
    (hcost : ∀ p ∈ r.models, 0 ≤ p.2.cost_per_1m_tokens) :
    r.budget_spent_today ≤ (track_cost r model_id tokens_used).budget_spent_today := by
  unfold track_cost
  cases h : r.getModel model_id with
  | none => exact le_refl _
  | some m =>
      obtain ⟨p, hp, hpm⟩ := getModel_mem r model_id m h
      have hc : (0 : ℚ) ≤ (m.cost_per_1m_tokens : ℚ) := by
        exact_mod_cast hpm ▸ hcost p hp
      have ht : (0 : ℚ) ≤ (tokens_used : ℚ) := by exact_mod_cast htok
      have hx : (0 : ℚ) ≤ ((tokens_used : ℚ) / 1000000) * (m.cost_per_1m_tokens : ℚ) :=
        mul_nonneg (div_nonneg ht (by norm_num)) hc
      exact le_add_of_nonneg_right hx

/-- Counterexample for C8 as stated: a negative token count (allowed by the
integer parameter type) makes `spent_today` decrease. -/
theorem track_cost_monotone_counterexample :
    ¬ routerM3.budget_spent_today ≤ (track_cost routerM3 "m" (-1000000)).budget_spent_today := by
  have hg : routerM3.getModel "m" = some mChat3 := by decide
  simp only [track_cost, hg]
  norm_num [routerM3, mChat3]

/-- Witness for C8 on concrete non-negative data. -/
theorem track_cost_monotone_witness :
    routerM3.budget_spent_today ≤ (track_cost routerM3 "m" 1000000).budget_spent_today := by
  refine track_cost_monotone routerM3 "m" 1000000 (by norm_num) ?_
  intro p hp
  simp only [routerM3, List.mem_singleton] at hp
  simp [hp, mChat3]

/-- C9: whenever a decision of `route_task` carries `budget_remaining`, that
field equals `daily_limit - spent_today` and is strictly positive. -/
theorem budget_remaining_positive (r : ModelRouter) (task : Task) (b : ℚ)
    (h : (route_task r task).budgetRemaining = some b) :
    b = r.daily_limit - r.budget_spent_today ∧ 0 < b := by
  unfold route_task at h
  by_cases hb : r.budget_spent_today ≥ r.daily_limit
  · rw [if_pos hb] at h
    simp [Decision.budgetRemaining] at h
  · rw [if_neg hb] at h
    have key : ∀ L : List Rule,
        (routeRules r task L).budgetRemaining = some b →
        b = r.daily_limit - r.budget_spent_today := by
      intro L
      induction L with
      | nil => simp [routeRules, noRuleDecision, Decision.budgetRemaining]
      | cons rule rest ih =>
          intro hL
          by_cases hm : ruleMatches rule task
          · rw [routeRules, if_pos hm] at hL
            simp [applyRule, Decision.budgetRemaining] at hL
            exact hL.symm
          · rw [routeRules, if_neg hm] at hL
            exact ih hL
    refine ⟨key r.routing_rules h, ?_⟩
    rw [key r.routing_rules h]
    exact sub_pos.mpr (lt_of_not_le hb)

/-- Witness for C9 on a router with one always-matching rule. -/
theorem budget_remaining_positive_witness :
    (100 : ℚ) = routerMatchAll.daily_limit - routerMatchAll.budget_spent_today ∧
    (0 : ℚ) < 100 := by
  refine budget_remaining_positive routerMatchAll taskChat 100 ?_
  norm_num [route_task, routerMatchAll, routeRules, ruleMatchAll, ruleMatches, truthyStr,
    applyRule, Decision.budgetRemaining]

/-- One filter conjunct as the amended specification words it: a filter
constrains the task field only when it is present and non-empty. -/
def fieldFilterOk (filter : Option String) (v : String) : Bool :=
  match filter with
  | none => true
  | some f => f == "" || f == v

/-- Rule matching as the amended specification words it. This definition
follows the amended words of the spec, to be compared with the code-derived
`ruleMatches`. -/
def matchesAmended (rule : Rule) (task : Task) : Bool :=
  fieldFilterOk rule.«when».task_type task.task_type &&
  fieldFilterOk rule.«when».complexity task.complexity

/-- The code-level match test agrees with the amended wording. -/
theorem ruleMatches_eq_matchesAmended (rule : Rule) (task : Task) :
    ruleMatches rule task = matchesAmended rule task := by
  obtain ⟨⟨wt, wc⟩, u, f, g⟩ := rule
  unfold ruleMatches matchesAmended fieldFilterOk truthyStr optEqStr
  cases wt with
  | none =>
      cases wc with
      | none => simp
      | some c => cases h3 : (c == "") <;> cases h4 : (c == task.complexity) <;> simp [h3, h4]
  | some t =>
      cases wc with
      | none => cases h1 : (t == "") <;> cases h2 : (t == task.task_type) <;> simp [h1, h2]
      | some c =>
          cases h1 : (t == "") <;> cases h2 : (t == task.task_type) <;>
            cases h3 : (c == "") <;> cases h4 : (c == task.complexity) <;>
              simp [h1, h2, h3, h4]

/-- C2 (amended): with the budget gate passed, `route_task` commits to the
first rule of the list whose filters all hold, where a filter on a field
holds exactly when it is absent, empty, or equal to the task field. -/
theorem first_match_wins (r : ModelRouter) (task : Task) (pre post : List Rule) (rule : Rule)
    (hrules : r.routing_rules = pre ++ rule :: post)
    (hbudget : r.budget_spent_today < r.daily_limit)
    (hpre : ∀ q ∈ pre, matchesAmended q task = false)
    (hmatch : matchesAmended rule task = true) :
    route_task r task = applyRule r task rule ∧
    (∀ q : Rule, ∀ t : Task, ruleMatches q t = matchesAmended q t) := by
  refine ⟨?_, fun q t => ruleMatches_eq_matchesAmended q t⟩
  exact route_task_first_match r task pre post rule hrules hbudget
    (fun q hq => (ruleMatches_eq_matchesAmended q task).trans (hpre q hq))
    ((ruleMatches_eq_matchesAmended rule task).trans hmatch)

/-- A rule whose task-type filter is present but empty. -/
def ruleEmptyFilter : Rule := { «when» := { task_type := some "" } }

/-- A router whose only rule carries the empty task-type filter. -/
def routerEmptyFilter : ModelRouter :=
  { models := [], routing_rules := [ruleEmptyFilter], budget_spent_today := 0,
    daily_limit := 100 }

/-- Counterexample for C2 as stated: the filter is present and differs from
the task type, so under the claimed absent-or-equal matching no rule should
match, yet `route_task` commits to this rule (and does not return the
unmatched-branch decision). -/
theorem first_match_wins_counterexample :
    ruleEmptyFilter.«when».task_type = some "" ∧
    ruleEmptyFilter.«when».task_type ≠ none ∧
    ruleEmptyFilter.«when».task_type ≠ some taskChat.task_type ∧
    route_task routerEmptyFilter taskChat = applyRule routerEmptyFilter taskChat ruleEmptyFilter ∧
    (route_task routerEmptyFilter taskChat).reasoningText ≠
      some "No matching rule - using cheapest option" := by
  have hb : ¬ routerEmptyFilter.budget_spent_today ≥ routerEmptyFilter.daily_limit := by
    norm_num [routerEmptyFilter]
  have hm : ruleMatches ruleEmptyFilter taskChat = true := by decide
  have hroute : route_task routerEmptyFilter taskChat
      = applyRule routerEmptyFilter taskChat ruleEmptyFilter := by
    unfold route_task
    rw [if_neg hb]
    show routeRules _ _ [ruleEmptyFilter] = _
    simp [routeRules, hm]
  refine ⟨rfl, by decide, by decide, hroute, ?_⟩
  rw [hroute]
  simp [applyRule, Decision.reasoningText, ruleEmptyFilter]

/-- Witness for C2 on a concrete two-rule router where both rules match. -/
theorem first_match_wins_witness :
    route_task routerTwoRules taskChat = applyRule routerTwoRules taskChat ruleFirst ∧
    (∀ q : Rule, ∀ t : Task, ruleMatches q t = matchesAmended q t) :=
  first_match_wins routerTwoRules taskChat [] [ruleSecond] ruleFirst rfl
    (by norm_num [routerTwoRules]) (by simp) (by decide)

/-- C4: when the matched rule names a model id that is not in the registry,
`route_task` substitutes the cheapest capable model for the current task,
still reports status `routed`, and keeps the rule reasoning text. -/
theorem missing_use_falls_back (r : ModelRouter) (task : Task) (pre post : List Rule)
    (rule : Rule)
    (hrules : r.routing_rules = pre ++ rule :: post)
    (hbudget : r.budget_spent_today < r.daily_limit)
    (hpre : ∀ q ∈ pre, ruleMatches q task = false)
    (hmatch : ruleMatches rule task = true)
    (huse : rule.use.bind r.getModel = none) :
    (route_task r task).status = "routed" ∧
    (route_task r task).selectedModel = (find_cheapest_model r task).map Model.name ∧
    (route_task r task).reasoningText = some (rule.reasoning.getD "No reasoning provided") := by
  have hroute := route_task_first_match r task pre post rule hrules hbudget hpre hmatch
  rw [hroute]
  simp only [applyRule, huse]
  cases hf : find_cheapest_model r task <;>
    simp [Decision.status, Decision.selectedModel, Decision.reasoningText, hf]

/-- A rule for chat tasks whose `use` id is absent from the registry. -/
def ruleGhost : Rule :=
  { «when» := { task_type := some "chat" }, use := some "ghost", reasoning := some "r1" }

/-- A router with the ghost rule and a single capable model under id `c`. -/
def routerGhost : ModelRouter :=
  { models := [("c", mChat7)], routing_rules := [ruleGhost], budget_spent_today := 0,
    daily_limit := 100 }

/-- Witness for C4: the spec example with the cost-7 chat model. -/
theorem missing_use_falls_back_witness :
    (route_task routerGhost taskChat).status = "routed" ∧
    (route_task routerGhost taskChat).selectedModel = some "C" ∧
    (route_task routerGhost taskChat).reasoningText = some "r1" := by
  have h := missing_use_falls_back routerGhost taskChat [] [] ruleGhost rfl
    (by norm_num [routerGhost]) (by simp) (by decide) (by decide)
  refine ⟨h.1, ?_, ?_⟩
  · rw [h.2.1]; decide
  · rw [h.2.2]; decide

/-- C5: when no rule matches, `route_task` returns the `routed` decision
carrying the cheapest capable model (or none) and the fixed reasoning text,
and that decision carries no `budget_remaining` field. -/
theorem no_match_uses_cheapest (r : ModelRouter) (task : Task)
    (hbudget : r.budget_spent_today < r.daily_limit)
    (hnone : ∀ q ∈ r.routing_rules, ruleMatches q task = false) :
    route_task r task =
      Decision.routedNoRule task.description task.task_type task.complexity
        ((find_cheapest_model r task).map Model.name)
        "No matching rule - using cheapest option"
        ((find_cheapest_model r task).map Model.cost_per_1m_tokens) ∧
    (route_task r task).budgetRemaining = none ∧
    (route_task r task).status = "routed" := by
  have hroute : route_task r task = noRuleDecision r task := by
    unfold route_task
    rw [if_neg (not_le.mpr hbudget)]
    conv_lhs => rw [show r.routing_rules = r.routing_rules ++ [] from (List.append_nil _).symm]
    rw [routeRules_skip r task r.routing_rules [] hnone]
    rfl
  refine ⟨?_, ?_, ?_⟩ <;>
    rw [hroute] <;> simp [noRuleDecision, Decision.budgetRemaining, Decision.status]

/-- A router with no models and no rules at all. -/
def routerEmpty : ModelRouter :=
  { models := [], routing_rules := [], budget_spent_today := 0, daily_limit := 100 }

/-- Witness for C5 on the fully empty router: no fault, no model, no
`budget_remaining`. -/
theorem no_match_uses_cheapest_witness :
    route_task routerEmpty taskChat =
      Decision.routedNoRule "d" "chat" "medium" none
        "No matching rule - using cheapest option" none ∧
    (route_task routerEmpty taskChat).budgetRemaining = none := by
  have h := no_match_uses_cheapest routerEmpty taskChat (by norm_num [routerEmpty])
    (by simp [routerEmpty])
  refine ⟨?_, h.2.1⟩
  rw [h.1]; decide

/-- C10: a filter field holding the empty string is falsy, so the rule is
matched exactly as if the field were absent, and the corresponding task field
is unconstrained. -/
theorem empty_filter_ignored (rule : Rule) (task : Task) :
    (rule.«when».task_type = some "" →
      ruleMatches rule task
          = ruleMatches { rule with «when» := { rule.«when» with task_type := none } } task ∧
      ∀ x, ruleMatches rule { task with task_type := x } = ruleMatches rule task) ∧
    (rule.«when».complexity = some "" →
      ruleMatches rule task
          = ruleMatches { rule with «when» := { rule.«when» with complexity := none } } task ∧
      ∀ x, ruleMatches rule { task with complexity := x } = ruleMatches rule task) := by
  constructor
  · intro h
    constructor
    · simp [ruleMatches, h, truthyStr]
    · intro x; simp [ruleMatches, h, truthyStr]
  · intro h
    constructor
    · simp [ruleMatches, h, truthyStr]
    · intro x; simp [ruleMatches, h, truthyStr]

/-- Witness for C10 on the concrete empty-filter rule: the filter behaves as
absent, and changing the task type does not change the match. -/
theorem empty_filter_ignored_witness :
    ruleMatches ruleEmptyFilter taskChat
        = ruleMatches
            { ruleEmptyFilter with
              «when» := { ruleEmptyFilter.«when» with task_type := none } } taskChat ∧
    ruleMatches ruleEmptyFilter { taskChat with task_type := "data" }
        = ruleMatches ruleEmptyFilter taskChat :=
  ⟨((empty_filter_ignored ruleEmptyFilter taskChat).1 rfl).1,
   ((empty_filter_ignored ruleEmptyFilter taskChat).1 rfl).2 "data"⟩

/-! Properties of the cheapest-model selection. -/

/-- The cost minimum is empty exactly on the empty list. -/
theorem minByCost_eq_none_iff (l : List Model) : minByCost l = none ↔ l = [] := by
  cases l with
  | nil => simp [minByCost]
  | cons m ms =>
      simp only [minByCost]
      cases h : minByCost ms with
      | none => simp
      | some b =>
          by_cases hlt : b.cost_per_1m_tokens < m.cost_per_1m_tokens
          · simp [hlt]
          · simp [hlt]

/-- The cost minimum is an element of the list. -/
theorem minByCost_mem (l : List Model) (m : Model) (h : minByCost l = some m) : m ∈ l := by
  induction l generalizing m with
  | nil => simp [minByCost] at h
  | cons a as ih =>
      cases hm : minByCost as with
      | none =>
          simp only [minByCost, hm] at h
          obtain rfl : a = m := by simpa using h
          exact List.mem_cons_self _ _
      | some b =>
          simp only [minByCost, hm] at h
          by_cases hlt : b.cost_per_1m_tokens < a.cost_per_1m_tokens
          · rw [if_pos hlt] at h
            obtain rfl : b = m := by simpa using h
            exact List.mem_cons_of_mem _ (ih _ hm)
          · rw [if_neg hlt] at h
            obtain rfl : a = m := by simpa using h
            exact List.mem_cons_self _ _

/-- The cost minimum is no more expensive than any element of the list. -/
theorem minByCost_le (l : List Model) (m : Model) (h : minByCost l = some m) :
    ∀ x ∈ l, m.cost_per_1m_tokens ≤ x.cost_per_1m_tokens := by
  induction l generalizing m with
  | nil => simp [minByCost] at h
  | cons a as ih =>
      intro x hx
      cases hm : minByCost as with
      | none =>
          simp only [minByCost, hm] at h
          obtain rfl : a = m := by simpa using h
          have : as = [] := (minByCost_eq_none_iff as).mp hm
          subst this
          rcases List.mem_cons.mp hx with rfl | hxs
          · exact le_refl _
          · simp at hxs
      | some b =>
          simp only [minByCost, hm] at h
          by_cases hlt : b.cost_per_1m_tokens < a.cost_per_1m_tokens
          · rw [if_pos hlt] at h
            obtain rfl : b = m := by simpa using h
            rcases List.mem_cons.mp hx with rfl | hxs
            · exact le_of_lt hlt
            · exact ih _ hm x hxs
          · rw [if_neg hlt] at h
            obtain rfl : a = m := by simpa using h
            rcases List.mem_cons.mp hx with rfl | hxs
            · exact le_refl _
            · exact le_trans (le_of_not_lt hlt) (ih _ hm x hxs)

/-- C6: `find_cheapest_model` returns none exactly when no registered model
lists the task type; otherwise it returns a registered, capable model of
minimal cost among the capable ones, and, being a pure function of the
state, the same one on repeated calls. -/
theorem find_cheapest_model_spec (r : ModelRouter) (task : Task) :
    (find_cheapest_model r task = none ↔ ∀ p ∈ r.models, task.task_type ∉ p.2.type) ∧
    (∀ m, find_cheapest_model r task = some m →
      (∃ p ∈ r.models, p.2 = m) ∧ task.task_type ∈ m.type ∧
      ∀ p ∈ r.models, task.task_type ∈ p.2.type →
        m.cost_per_1m_tokens ≤ p.2.cost_per_1m_tokens) ∧
    find_cheapest_model r task = find_cheapest_model r task := by
  refine ⟨?_, ?_, rfl⟩
  · unfold find_cheapest_model
    rw [minByCost_eq_none_iff, List.filter_eq_nil_iff]
    constructor
    · intro hf p hp hmem
      have := hf p.2 (List.mem_map.mpr ⟨p, hp, rfl⟩)
      exact this (by simpa [List.contains] using List.elem_iff.mpr hmem)
    · intro hnone m hm
      obtain ⟨p, hp, rfl⟩ := List.mem_map.mp hm
      intro hc
      exact hnone p hp (List.elem_iff.mp (by simpa [List.contains] using hc))
  · intro m hm
    unfold find_cheapest_model at hm
    have hmem := minByCost_mem _ _ hm
    have hle := minByCost_le _ _ hm
    obtain ⟨hmap, hcont⟩ := List.mem_filter.mp hmem
    obtain ⟨p, hp, hpe⟩ := List.mem_map.mp hmap
    refine ⟨⟨p, hp, hpe⟩, ?_, ?_⟩
    · exact List.elem_iff.mp (by simpa [List.contains] using hcont)
    · intro q hq hqt
      refine hle q.2 (List.mem_filter.mpr ⟨List.mem_map.mpr ⟨q, hq, rfl⟩, ?_⟩)
      simpa [List.contains] using List.elem_iff.mpr hqt

/-- A chat model of cost 5 for the two-model selection example. -/
def mChatA : Model :=
  { name := "A", type := ["chat"], cost_per_1m_tokens := 5, max_context := 1000, priority := 1 }

/-- A chat model of cost 2 for the two-model selection example. -/
def mChatB : Model :=
  { name := "B", type := ["chat"], cost_per_1m_tokens := 2, max_context := 1000, priority := 1 }

/-- A router holding the cost-5 and cost-2 chat models. -/
def routerAB : ModelRouter :=
  { models := [("a", mChatA), ("b", mChatB)], routing_rules := [], budget_spent_today := 0,
    daily_limit := 100 }

/-- Witness for C6: between costs 5 and 2 the cost-2 model is selected and
the selection is registered, capable and minimal. -/
theorem find_cheapest_model_spec_witness :
    find_cheapest_model routerAB taskChat = some mChatB ∧
    (∃ p ∈ routerAB.models, p.2 = mChatB) ∧ taskChat.task_type ∈ mChatB.type ∧
    ∀ p ∈ routerAB.models, taskChat.task_type ∈ p.2.type →
      mChatB.cost_per_1m_tokens ≤ p.2.cost_per_1m_tokens := by
  have hf : find_cheapest_model routerAB taskChat = some mChatB := by decide
  have h := (find_cheapest_model_spec routerAB taskChat).2.1 mChatB hf
  exact ⟨hf, h.1, h.2.1, h.2.2⟩

/-! Properties of the classifier. -/

/-- C3 (amended): a description whose lowercase form contains
`architecture` and none of the keywords of the earlier task-type groups and
none of the low-complexity keywords classifies as `code_complex` with
complexity `high`. -/
theorem architecture_classifies_complex (s : String)
    (h1 : strContains (strToLower s) "architecture" = true)
    (h2 : strContains (strToLower s) "write code" = false)
    (h3 : strContains (strToLower s) "create function" = false)
    (h4 : strContains (strToLower s) "implement" = false)
    (h5 : strContains (strToLower s) "review code" = false)
    (h6 : strContains (strToLower s) "refactor" = false)
    (h7 : strContains (strToLower s) "audit" = false)
    (h8 : strContains (strToLower s) "debug" = false)
    (h9 : strContains (strToLower s) "fix error" = false)
    (h10 : strContains (strToLower s) "solve bug" = false)
    (h11 : strContains (strToLower s) "simple" = false)
    (h12 : strContains (strToLower s) "basic" = false)
    (h13 : strContains (strToLower s) "easy" = false) :
    (classify_task s).task_type = "code_complex" ∧
    (classify_task s).complexity = "high" := by
  simp [classify_task, h1, h2, h3, h4, h5, h6, h7, h8, h9, h10, h11, h12, h13]

/-- Counterexample for C3 as stated: this description contains the substring
`architecture`, yet an earlier keyword group (`implement`) wins the
task-type pass, so the type is `code_simple`, not `code_complex`. -/
theorem architecture_classifies_complex_counterexample :
    strContains "implement architecture" "architecture" = true ∧
    (classify_task "implement architecture").task_type = "code_simple" ∧
    (classify_task "implement architecture").task_type ≠ "code_complex" := by
  decide

/-- Witness for C3 on a description that only triggers the architecture
keyword. -/
theorem architecture_classifies_complex_witness :
    (classify_task "Design the architecture").task_type = "code_complex" ∧
    (classify_task "Design the architecture").complexity = "high" :=
  architecture_classifies_complex "Design the architecture"
    (by decide) (by decide) (by decide) (by decide) (by decide) (by decide) (by decide)
    (by decide) (by decide) (by decide) (by decide) (by decide) (by decide)

end OpenClaw
